import Mathlib

/-
Verification of the real-time media-streaming session engine of the
AI-companion application (src/App.tsx).

The embedding below is a shallow model of the session engine's state and
event handlers:

* `AppState` collects the mutable refs and React state the engine owns:
  `isActive`, the connection handle (`sessionHandle` / `connectionClosed`),
  the frame-sampling timer (`frameInterval`), the media stream and its
  device tracks, the playback cursor `nextStartTime` (nextPlaybackTime),
  the scheduled audio sources and the active-source set (`activeIds`),
  the two turn accumulators, and the transcript list.
* `handleAudio`, `handleInterrupted`, `appendInputFragment`,
  `appendOutputFragment`, `flushTurn` and `onmessage` embed the
  `onmessage` callback (App.tsx lines 357-394), in the source's order of
  sub-handlers.
* `stopSession` embeds App.tsx lines 252-269, `onclose` line 400, and
  `frameSamplerEffect` the effect of App.tsx lines 271-310 that reacts to
  `isActive` / `isCamOn`.
* `translateToEnglish` embeds App.tsx lines 196-210; the external model
  call is abstracted by a `TranslationReply` value (its response text, or
  a thrown failure). The Bool component records whether the external
  service was contacted.
* `pcmSample` embeds the PCM loop of App.tsx lines 349-351: the JS
  assignment `int16[i] = inputData[i] * 32768` converts via ToInt16,
  i.e. truncation toward zero followed by wrapping modulo 2^16.
  Multiplication of a binary float by 32768 is exact, so modelling
  samples as rationals is faithful.
* `schedule` is the playback-scheduling recurrence of lines 361-368
  iterated over a list of (arrivalTime, duration) chunks, with the output
  clock read as the arrival time of the chunk being processed.
-/

namespace Aether

/-- Role of a transcript entry. -/
inductive Role where
  | user
  | model
  | system
deriving DecidableEq, Repr

/-- One immutable transcript record (interface TranscriptEntry, App.tsx 36-42). -/
structure TranscriptEntry where
  id : String
  role : Role
  text : String
  englishTranslation : Option String
  isTranscription : Bool
deriving DecidableEq, Repr

/-- One scheduled output-audio buffer source: its id, the start time it was
scheduled at, its duration, and whether stop() has been called on it. -/
structure AudioSource where
  sid : Nat
  startTime : ℚ
  duration : ℚ
  stopped : Bool
deriving DecidableEq, Repr

/-- The session engine's mutable state: the refs and state of App.tsx that the
claims concern. `tracks` holds the stopped-flags of the device tracks
(true = stopped); `activeIds` is the audioSourcesRef set, by source id. -/
structure AppState where
  isActive : Bool
  isCamOn : Bool
  sessionHandle : Bool
  connectionClosed : Bool
  frameInterval : Bool
  mediaStream : Bool
  tracks : List Bool
  nextStartTime : ℚ
  sources : List AudioSource
  activeIds : List Nat
  currentUserInput : String
  currentModelOutput : String
  transcript : List TranscriptEntry
deriving DecidableEq, Repr

/-- Outcome of the external translation model call: the call threw, or it
returned a response whose `.text` field is the given optional string. -/
inductive TranslationReply where
  | fail
  | ok (text : Option String)
deriving DecidableEq, Repr

/-- JS `String.prototype.trim`: drop whitespace characters from both ends. -/
def jsTrim (s : String) : String :=
  ⟨(((s.data.dropWhile Char.isWhitespace).reverse.dropWhile
      Char.isWhitespace).reverse)⟩

/-- Embedding of `translateToEnglish` (App.tsx 196-210). Returns the
result (`null` modelled as `none`) paired with whether the external
translation service was contacted. The source:
`if (!text || !isTranslationEnabled) return null;` then on success
`result = response.text?.trim() || ""` and
`return result === "SKIP" ? null : result;`; a thrown error is caught and
`null` returned. -/
def translateToEnglish (text : String) (isTranslationEnabled : Bool)
    (reply : TranslationReply) : Option String × Bool :=
  if text = "" ∨ isTranslationEnabled = false then (none, false)
  else
    match reply with
    | .fail => (none, true)
    | .ok rt =>
      let result := match rt with
        | some t => jsTrim t
        | none => ""
      (if result = "SKIP" then none else some result, true)

/-- JS `english || undefined`: the empty string and `null` both collapse to an
absent `englishTranslation` field. -/
def orUndefined (e : Option String) : Option String :=
  match e with
  | some s => if s = "" then none else some s
  | none => none

/-- Embedding of the inbound-audio branch of `onmessage` (App.tsx 358-369):
`nextStartTime = max(nextStartTime, ctx.currentTime)`, start the new source at
that time, advance the cursor by the buffer duration, add the source to the
active set. `fresh` is the id of the newly created source node. -/
def handleAudio (st : AppState) (dur now : ℚ) (fresh : Nat) : AppState :=
  let start := max st.nextStartTime now
  { st with
      nextStartTime := start + dur
      sources := st.sources ++ [⟨fresh, start, dur, false⟩]
      activeIds := st.activeIds ++ [fresh] }

/-- Embedding of the interruption branch of `onmessage` (App.tsx 371-375):
stop every member of the active set, clear the set, reset the cursor to 0. -/
def handleInterrupted (st : AppState) : AppState :=
  { st with
      sources := st.sources.map fun s =>
        if s.sid ∈ st.activeIds then { s with stopped := true } else s
      activeIds := []
      nextStartTime := 0 }

/-- Embedding of App.tsx 376: `currentUserInputRef.current += ...text`. -/
def appendInputFragment (st : AppState) (frag : String) : AppState :=
  { st with currentUserInput := st.currentUserInput ++ frag }

/-- Embedding of App.tsx 377: `currentModelOutputRef.current += ...text`. -/
def appendOutputFragment (st : AppState) (frag : String) : AppState :=
  { st with currentModelOutput := st.currentModelOutput ++ frag }

/-- Embedding of the turn-completion branch of `onmessage` (App.tsx 379-393):
read both accumulators; if the user text is non-empty, translate it and append
a user entry; then likewise for the model text; finally reset both
accumulators. `tstamp` stands for `Date.now()` as a string. -/
def flushTurn (st : AppState) (enabled : Bool) (uReply mReply : TranslationReply)
    (tstamp : String) : AppState :=
  let userText := st.currentUserInput
  let modelText := st.currentModelOutput
  let st1 := if userText ≠ "" then
      { st with transcript := st.transcript ++
          [{ id := tstamp ++ "-u", role := .user, text := userText,
             englishTranslation :=
               orUndefined (translateToEnglish userText enabled uReply).1,
             isTranscription := false }] }
    else st
  let st2 := if modelText ≠ "" then
      { st1 with transcript := st1.transcript ++
          [{ id := tstamp ++ "-m", role := .model, text := modelText,
             englishTranslation :=
               orUndefined (translateToEnglish modelText enabled mReply).1,
             isTranscription := false }] }
    else st1
  { st2 with currentUserInput := "", currentModelOutput := "" }

/-- One inbound server message, reduced to the fields `onmessage` reads:
the decoded duration of an inline audio payload (if any), the interrupted
flag, the two transcription fragments, and the turn-complete flag. -/
structure ServerMessage where
  audioDuration : Option ℚ
  interrupted : Bool
  inputTranscription : Option String
  outputTranscription : Option String
  turnComplete : Bool
deriving DecidableEq, Repr

/-- Embedding of the whole `onmessage` callback (App.tsx 357-394), handling
the message's fields in the source's order: audio, interruption, input
fragment, output fragment, turn completion. -/
def onmessage (st : AppState) (m : ServerMessage) (now : ℚ) (fresh : Nat)
    (enabled : Bool) (uReply mReply : TranslationReply) (tstamp : String) :
    AppState :=
  let st1 := match m.audioDuration with
    | some d => handleAudio st d now fresh
    | none => st
  let st2 := if m.interrupted then handleInterrupted st1 else st1
  let st3 := match m.inputTranscription with
    | some f => appendInputFragment st2 f
    | none => st2
  let st4 := match m.outputTranscription with
    | some f => appendOutputFragment st3 f
    | none => st3
  if m.turnComplete then flushTurn st4 enabled uReply mReply tstamp else st4

/-- Embedding of `stopSession` (App.tsx 252-269): deactivate, close the
connection handle if present and drop it, clear the frame timer, stop every
device track and drop the stream, stop every active audio source, clear the
active set, reset the cursor. All of this happens in the one synchronous
function body. -/
def stopSession (st : AppState) : AppState :=
  { st with
      isActive := false
      connectionClosed := if st.sessionHandle then true else st.connectionClosed
      sessionHandle := false
      frameInterval := false
      tracks := if st.mediaStream then st.tracks.map (fun _ => true) else st.tracks
      mediaStream := false
      sources := st.sources.map fun s =>
        if s.sid ∈ st.activeIds then { s with stopped := true } else s
      activeIds := []
      nextStartTime := 0 }

/-- Embedding of the transport `onclose` callback (App.tsx 400):
`onclose: () => setIsActive(false)` and nothing else. -/
def onclose (st : AppState) : AppState := { st with isActive := false }

/-- Embedding of the frame-sampler effect (App.tsx 271-310): when the session
is inactive or the camera off, the interval is cleared; otherwise a (new)
interval is installed. -/
def frameSamplerEffect (st : AppState) : AppState :=
  if !st.isActive || !st.isCamOn then { st with frameInterval := false }
  else { st with frameInterval := true }

/-- The scheduling recurrence of App.tsx 361-368 iterated over a list of
chunks `(arrivalTime, duration)`, each processed at its arrival time:
`start = max cursor arrival`, emit `(start, duration)`, continue with cursor
`start + duration`. -/
def schedule (cursor : ℚ) : List (ℚ × ℚ) → List (ℚ × ℚ)
  | [] => []
  | (t, d) :: rest =>
      let s := max cursor t
      (s, d) :: schedule (s + d) rest

/-- Truncation of a rational toward zero, as JS ToIntegerOrInfinity performs
on the value assigned into an Int16Array. -/
def ratTrunc (x : ℚ) : ℤ := if 0 ≤ x then ⌊x⌋ else ⌈x⌉

/-- JS ToInt16 wrapping of an integer: reduce modulo 2^16 into [0, 65536),
then reinterpret values ≥ 32768 as negative. -/
def toInt16 (n : ℤ) : ℤ :=
  let r := n % 65536
  if r < 32768 then r else r - 65536

/-- Embedding of `int16[i] = inputData[i] * 32768` (App.tsx 350): the JS
Int16Array element assignment truncates the product toward zero and wraps it
per ToInt16. -/
def pcmSample (s : ℚ) : ℤ := toInt16 (ratTrunc (s * 32768))

/-- The PCM loop over one capture block (App.tsx 349-351). -/
def pcmEncodeBlock (block : List ℚ) : List ℤ := block.map pcmSample

/-- Modelled from the spec's words for comparison (claim C7): each sample
maps to `round(s * 32768)`, wrapped by the 16-bit integer representation. -/
def pcmSampleRoundSpec (s : ℚ) : ℤ := toInt16 (round (s * 32768))

/-- A concrete active-session state with three scheduled, still-active audio
sources, used to instantiate the lifecycle theorems. -/
def demoState : AppState :=
  { isActive := true
    isCamOn := true
    sessionHandle := true
    connectionClosed := false
    frameInterval := true
    mediaStream := true
    tracks := [false, false]
    nextStartTime := 4
    sources := [⟨0, 0, 2, false⟩, ⟨1, 2, 1, false⟩, ⟨2, 3, 1, false⟩]
    activeIds := [0, 1, 2]
    currentUserInput := ""
    currentModelOutput := ""
    transcript := [] }

/-- A concrete state at turn completion with user text accumulated and no
model text. -/
def turnState : AppState :=
  { demoState with currentUserInput := "Hola", currentModelOutput := "" }

/-- A concrete state at turn completion with both accumulators non-empty. -/
def bothTurnState : AppState :=
  { demoState with currentUserInput := "Hola", currentModelOutput := "Bonjour" }

/-- The idle state: nothing held, cursor at 0. -/
def idleState : AppState :=
  { isActive := false
    isCamOn := true
    sessionHandle := false
    connectionClosed := false
    frameInterval := false
    mediaStream := false
    tracks := []
    nextStartTime := 0
    sources := []
    activeIds := []
    currentUserInput := ""
    currentModelOutput := ""
    transcript := [] }

/-! ## Theorems -/

/-- Consecutive chunks in the schedule play back-to-back: if chunk `i+1`
arrives no later than the end of chunk `i`, its start time is exactly
`start_i + d_i`. -/
theorem schedule_consecutive (chunks : List (ℚ × ℚ)) :
    ∀ (cursor : ℚ) (i : ℕ) (s d t' d' : ℚ),
      (schedule cursor chunks)[i]? = some (s, d) →
      chunks[i+1]? = some (t', d') →
      t' ≤ s + d →
      (schedule cursor chunks)[i+1]? = some (s + d, d') := by
  induction chunks with
  | nil =>
    intro cursor i s d t' d' h1 _ _
    simp [schedule] at h1
  | cons hd rest ih =>
    obtain ⟨t, d0⟩ := hd
    intro cursor i s d t' d' h1 h2 h3
    match i with
    | 0 =>
      simp [schedule] at h1 h2 ⊢
      obtain ⟨hs, hd0⟩ := h1
      subst hs hd0
      match rest, h2 with
      | (t2, d2) :: r, h2 =>
        simp at h2
        obtain ⟨ht2, hd2⟩ := h2
        subst ht2 hd2
        simp [schedule, max_eq_left h3]
    | (i + 1 : ℕ) =>
      simp [schedule] at h1 h2 ⊢
      exact ih (max cursor t + d0) i s d t' d' h1 h2 h3

/-- Claim C1: each inbound audio chunk is scheduled at
`startTime = max(nextPlaybackTime, currentClockTime)` and the cursor then
advances to `startTime + bufferDuration`; consequently whenever chunk `i+1`
arrives before chunk `i` finishes playing, `start_{i+1} = start_i + d_i`
(back-to-back, no gap and no overlap); in particular chunks of 2.0s and 1.5s
arriving at t=0 and t=1.0 start at t=0 and t=2.0, the second ending at
t=3.5. -/
theorem c1_backToBackScheduling :
    (∀ (st : AppState) (dur now : ℚ) (fresh : Nat),
        (handleAudio st dur now fresh).sources.getLast?
            = some ⟨fresh, max st.nextStartTime now, dur, false⟩
          ∧ (handleAudio st dur now fresh).nextStartTime
            = max st.nextStartTime now + dur)
    ∧ (∀ (cursor : ℚ) (chunks : List (ℚ × ℚ)) (i : ℕ) (s d t' d' : ℚ),
        (schedule cursor chunks)[i]? = some (s, d) →
        chunks[i+1]? = some (t', d') →
        t' ≤ s + d →
        (schedule cursor chunks)[i+1]? = some (s + d, d'))
    ∧ schedule 0 [(0, 2), (1, 3/2)] = [(0, 2), (2, 3/2)]
    ∧ ((schedule 0 [(0, 2), (1, 3/2)]).map fun p => p.1 + p.2) = [2, 7/2] := by
  refine ⟨?_, ?_, ?_, ?_⟩
  · intro st dur now fresh
    exact ⟨by simp [handleAudio, List.getLast?_concat], by simp [handleAudio]⟩
  · intro cursor chunks i s d t' d'
    exact schedule_consecutive chunks cursor i s d t' d'
  · norm_num [schedule, max_def]
  · norm_num [schedule, max_def]

/-- Witness for C1: the spec's two-chunk scenario, scheduled through the
theorem itself. -/
theorem c1_backToBackScheduling_witness :
    (schedule 0 [(0, 2), (1, 3/2)])[0+1]? = some ((0 : ℚ) + 2, 3/2) :=
  c1_backToBackScheduling.2.1 0 [(0, 2), (1, 3/2)] 0 0 2 1 (3/2)
    (by norm_num [schedule, max_def]) (by norm_num) (by norm_num)

/-- Claim C2: an interruption event stops every member of the active source
set, clears the set and resets `nextPlaybackTime` to 0, all inside the one
`onmessage` invocation, so that the next chunk is scheduled at the current
clock time. -/
theorem c2_interruptionClearsPlayback (st : AppState) (now : ℚ)
    (hnow : 0 ≤ now) :
    onmessage st ⟨none, true, none, none, false⟩ now 0 true .fail .fail ""
        = handleInterrupted st
    ∧ (∀ s ∈ (handleInterrupted st).sources,
        s.sid ∈ st.activeIds → s.stopped = true)
    ∧ (handleInterrupted st).activeIds = []
    ∧ (handleInterrupted st).nextStartTime = 0
    ∧ ∀ (dur : ℚ) (fresh : Nat),
        (handleAudio (handleInterrupted st) dur now fresh).sources.getLast?
          = some ⟨fresh, now, dur, false⟩ := by
  refine ⟨rfl, ?_, rfl, rfl, ?_⟩
  · intro s hs hsid
    simp [handleInterrupted] at hs
    obtain ⟨a, ha, hfa⟩ := hs
    by_cases h : a.sid ∈ st.activeIds
    · rw [if_pos h] at hfa
      subst hfa
      rfl
    · rw [if_neg h] at hfa
      subst hfa
      exact absurd hsid h
  · intro dur fresh
    simp [handleAudio, handleInterrupted, List.getLast?_concat,
      max_eq_right hnow]

/-- Witness for C2: after an interruption of the demo state, a chunk arriving
at clock time 1 starts at 1 rather than at the stale cursor 4. -/
theorem c2_interruptionClearsPlayback_witness :
    (handleAudio (handleInterrupted demoState) 2 1 3).sources.getLast?
      = some ⟨3, 1, 2, false⟩ :=
  (c2_interruptionClearsPlayback demoState 1 (by norm_num)).2.2.2.2 2 3

/-- Claim C3: `stopSession` on an active session synchronously deactivates,
closes the transport, cancels the frame timer, stops every device track,
stops every scheduled-but-unfinished source, empties the active set and
resets the cursor to 0, for any number of scheduled chunks. -/
theorem c3_stopSessionCleanup (st : AppState)
    (hA : st.isActive = true) (hS : st.sessionHandle = true)
    (hM : st.mediaStream = true) (hF : st.frameInterval = true) :
    (stopSession st).isActive = false
    ∧ (stopSession st).frameInterval = false
    ∧ (stopSession st).sessionHandle = false
    ∧ (stopSession st).connectionClosed = true
    ∧ (stopSession st).mediaStream = false
    ∧ (∀ b ∈ (stopSession st).tracks, b = true)
    ∧ (∀ s ∈ (stopSession st).sources,
        s.sid ∈ st.activeIds → s.stopped = true)
    ∧ (stopSession st).activeIds = []
    ∧ (stopSession st).nextStartTime = 0 := by
  refine ⟨rfl, rfl, rfl, by simp [stopSession, hS], rfl, ?_, ?_, rfl, rfl⟩
  · intro b hb
    simp [stopSession, hM] at hb
    exact hb.2
  · intro s hs hsid
    simp [stopSession] at hs
    obtain ⟨a, ha, hfa⟩ := hs
    by_cases h : a.sid ∈ st.activeIds
    · rw [if_pos h] at hfa
      subst hfa
      rfl
    · rw [if_neg h] at hfa
      subst hfa
      exact absurd hsid h

/-- Witness for C3: stopping the demo session (three scheduled chunks)
empties the active set and resets the cursor. -/
theorem c3_stopSessionCleanup_witness :
    (stopSession demoState).activeIds = []
    ∧ (stopSession demoState).nextStartTime = 0 :=
  ⟨(c3_stopSessionCleanup demoState rfl rfl rfl rfl).2.2.2.2.2.2.2.1,
   (c3_stopSessionCleanup demoState rfl rfl rfl rfl).2.2.2.2.2.2.2.2⟩

/-- Claim C4 counterexample: a remote close does NOT perform the cleanup of
an explicit stop. After `onclose` (and the frame-sampler effect) on the demo
state, the active set still holds all three sources, the cursor is still 4,
the device tracks are not stopped and the stream is still held; `onclose` and
`stopSession` disagree on this state. -/
theorem c4_remoteCloseCounterexample :
    (frameSamplerEffect (onclose demoState)).activeIds = [0, 1, 2]
    ∧ (frameSamplerEffect (onclose demoState)).nextStartTime = 4
    ∧ (frameSamplerEffect (onclose demoState)).tracks = [false, false]
    ∧ (frameSamplerEffect (onclose demoState)).mediaStream = true
    ∧ onclose demoState ≠ stopSession demoState := by
  refine ⟨rfl, rfl, rfl, rfl, ?_⟩
  intro h
  exact absurd (congrArg AppState.activeIds h) (by decide)

/-- Claim C4 as amended: the remote-close callback only clears the active
flag (whereupon the frame-sampler effect clears the frame timer); it leaves
the device tracks, the media stream, the scheduled sources, the active set,
the playback cursor and the connection handle untouched. -/
theorem c4_remoteCloseOnlyDeactivates (st : AppState) :
    (frameSamplerEffect (onclose st)).isActive = false
    ∧ (frameSamplerEffect (onclose st)).frameInterval = false
    ∧ (frameSamplerEffect (onclose st)).tracks = st.tracks
    ∧ (frameSamplerEffect (onclose st)).mediaStream = st.mediaStream
    ∧ (frameSamplerEffect (onclose st)).sources = st.sources
    ∧ (frameSamplerEffect (onclose st)).activeIds = st.activeIds
    ∧ (frameSamplerEffect (onclose st)).nextStartTime = st.nextStartTime
    ∧ (frameSamplerEffect (onclose st)).sessionHandle = st.sessionHandle := by
  simp [frameSamplerEffect, onclose]

/-- Claim C5: at turn completion, a non-empty user accumulator with an empty
model accumulator appends exactly one user entry; two empty accumulators
append nothing. -/
theorem c5_turnFlushUserOnly (st : AppState) (enabled : Bool)
    (u m : TranslationReply) (ts : String) :
    (st.currentUserInput ≠ "" → st.currentModelOutput = "" →
      (flushTurn st enabled u m ts).transcript
        = st.transcript ++
          [⟨ts ++ "-u", .user, st.currentUserInput,
            orUndefined (translateToEnglish st.currentUserInput enabled u).1,
            false⟩])
    ∧ (st.currentUserInput = "" → st.currentModelOutput = "" →
      (flushTurn st enabled u m ts).transcript = st.transcript) := by
  constructor
  · intro h1 h2
    simp [flushTurn, h1, h2]
  · intro h1 h2
    simp [flushTurn, h1, h2]

/-- Witness for C5: flushing a turn with user text "Hola" and no model text
appends exactly the one user entry. -/
theorem c5_turnFlushUserOnly_witness :
    (flushTurn turnState true (.ok (some "Hello")) .fail "1").transcript
      = turnState.transcript ++
        [⟨"1" ++ "-u", .user, turnState.currentUserInput,
          orUndefined
            (translateToEnglish turnState.currentUserInput true
              (.ok (some "Hello"))).1,
          false⟩] :=
  (c5_turnFlushUserOnly turnState true (.ok (some "Hello")) .fail "1").1
    (by decide) rfl

/-- Claim C6: with both accumulators non-empty, the user entry is appended
before the model entry; both accumulators are reset after the flush; and
fragments are concatenated onto the matching accumulator in arrival order. -/
theorem c6_turnFlushOrderAndReset :
    (∀ (st : AppState) (enabled : Bool) (u m : TranslationReply) (ts : String),
      st.currentUserInput ≠ "" → st.currentModelOutput ≠ "" →
      (flushTurn st enabled u m ts).transcript
        = st.transcript ++
          [⟨ts ++ "-u", .user, st.currentUserInput,
            orUndefined (translateToEnglish st.currentUserInput enabled u).1,
            false⟩,
           ⟨ts ++ "-m", .model, st.currentModelOutput,
            orUndefined (translateToEnglish st.currentModelOutput enabled m).1,
            false⟩])
    ∧ (∀ (st : AppState) (enabled : Bool) (u m : TranslationReply)
        (ts : String),
      (flushTurn st enabled u m ts).currentUserInput = ""
      ∧ (flushTurn st enabled u m ts).currentModelOutput = "")
    ∧ (∀ (st : AppState) (frags : List String),
      (frags.foldl appendInputFragment st).currentUserInput
        = frags.foldl (fun a f => a ++ f) st.currentUserInput
      ∧ (frags.foldl appendOutputFragment st).currentModelOutput
        = frags.foldl (fun a f => a ++ f) st.currentModelOutput) := by
  refine ⟨?_, ?_, ?_⟩
  · intro st enabled u m ts h1 h2
    simp [flushTurn, h1, h2]
  · intro st enabled u m ts
    exact ⟨rfl, rfl⟩
  · intro st frags
    induction frags generalizing st with
    | nil => exact ⟨rfl, rfl⟩
    | cons f fs ih =>
      simp only [List.foldl_cons]
      exact ⟨(ih (appendInputFragment st f)).1,
             (ih (appendOutputFragment st f)).2⟩

/-- Witness for C6: a turn with "Hola" (user) and "Bonjour" (model) flushes
the user entry first, then the model entry. -/
theorem c6_turnFlushOrderAndReset_witness :
    (flushTurn bothTurnState true .fail .fail "1").transcript
      = bothTurnState.transcript ++
        [⟨"1" ++ "-u", .user, bothTurnState.currentUserInput,
          orUndefined
            (translateToEnglish bothTurnState.currentUserInput true .fail).1,
          false⟩,
         ⟨"1" ++ "-m", .model, bothTurnState.currentModelOutput,
          orUndefined
            (translateToEnglish bothTurnState.currentModelOutput true .fail).1,
          false⟩] :=
  c6_turnFlushOrderAndReset.1 bothTurnState true .fail .fail "1"
    (by decide) (by decide)

/-- Claim C7 counterexample: the code truncates the scaled sample toward zero
rather than rounding it; at `s = 3/65536` the product is 1.5, the code
produces 1 while `round` produces 2. -/
theorem c7_pcmRoundCounterexample :
    pcmSample (3 / 65536) = 1
    ∧ pcmSampleRoundSpec (3 / 65536) = 2
    ∧ pcmSample (3 / 65536) ≠ pcmSampleRoundSpec (3 / 65536) := by
  have hm : ((3 : ℚ) / 65536) * 32768 = 3 / 2 := by norm_num
  have hf : ⌊(3 : ℚ) / 2⌋ = 1 := by norm_num
  have hr : round ((3 : ℚ) / 2) = 2 := by rw [round_eq]; norm_num
  have h1 : pcmSample (3 / 65536) = 1 := by
    rw [pcmSample, ratTrunc, hm, if_pos (by norm_num : (0:ℚ) ≤ 3 / 2), hf]
    decide
  have h2 : pcmSampleRoundSpec (3 / 65536) = 2 := by
    rw [pcmSampleRoundSpec, hm, hr]
    decide
  exact ⟨h1, h2, by rw [h1, h2]; decide⟩

/-- Claim C7 as amended: PCM encoding is the deterministic pure map sending
each sample to the 16-bit value obtained by truncating `s * 32768` toward
zero and wrapping modulo 2^16 (no clamp); sample 0 encodes to 0, sample -1
to -32768, and sample 1 wraps to -32768. -/
theorem c7_pcmTruncationAmended :
    (∀ s : ℚ, pcmSample s = ((ratTrunc (s * 32768) + 32768) % 65536) - 32768)
    ∧ pcmSample 0 = 0
    ∧ pcmSample (-1) = -32768
    ∧ pcmSample 1 = -32768
    ∧ ∀ block : List ℚ, pcmEncodeBlock block = block.map pcmSample := by
  refine ⟨?_, ?_, ?_, ?_, fun _ => rfl⟩
  · intro s
    rw [pcmSample, toInt16]
    split
    · omega
    · omega
  · have : ((0 : ℚ)) * 32768 = 0 := by norm_num
    rw [pcmSample, ratTrunc, this, if_pos le_rfl]
    decide
  · have hm : ((-1 : ℚ)) * 32768 = ((-32768 : ℤ) : ℚ) := by norm_num
    have hc : ⌈((-32768 : ℤ) : ℚ)⌉ = -32768 := Int.ceil_intCast _
    rw [pcmSample, ratTrunc, hm, if_neg (by norm_num), hc]
    decide
  · have hm : ((1 : ℚ)) * 32768 = ((32768 : ℤ) : ℚ) := by norm_num
    have hf : ⌊((32768 : ℤ) : ℚ)⌋ = 32768 := Int.floor_intCast _
    rw [pcmSample, ratTrunc, hm, if_pos (by norm_num), hf]
    decide

/-- Claim C8: translation is best-effort; the "SKIP" sentinel and a thrown
translation failure both yield no translation, and the transcript entry is
still created, without a translation field. -/
theorem c8_translationBestEffort (st : AppState) (ts : String)
    (reply : TranslationReply)
    (h1 : st.currentUserInput ≠ "") (h2 : st.currentModelOutput = "")
    (h3 : reply = .fail ∨ reply = .ok (some "SKIP")) :
    (translateToEnglish st.currentUserInput true reply).1 = none
    ∧ (flushTurn st true reply reply ts).transcript
      = st.transcript ++
        [⟨ts ++ "-u", .user, st.currentUserInput, none, false⟩] := by
  have hskip : jsTrim "SKIP" = "SKIP" := rfl
  have htr : (translateToEnglish st.currentUserInput true reply).1 = none := by
    rcases h3 with rfl | rfl
    · simp [translateToEnglish, h1]
    · simp [translateToEnglish, h1, hskip]
  refine ⟨htr, ?_⟩
  simp [flushTurn, h1, h2, htr, orUndefined]

/-- Witness for C8: a failing translation call on user text "Hola" still
produces the entry, with no translation field. -/
theorem c8_translationBestEffort_witness :
    (translateToEnglish turnState.currentUserInput true .fail).1 = none
    ∧ (flushTurn turnState true .fail .fail "1").transcript
      = turnState.transcript ++
        [⟨"1" ++ "-u", .user, turnState.currentUserInput, none, false⟩] :=
  c8_translationBestEffort turnState "1" .fail (by decide) rfl (Or.inl rfl)

/-- Claim C9: `stopSession` on an already-idle session (no connection handle,
no timer, no media stream, empty active set, cursor 0) leaves the whole state
unchanged. -/
theorem c9_stopIdempotentOnIdle (st : AppState)
    (h1 : st.isActive = false) (h2 : st.sessionHandle = false)
    (h3 : st.frameInterval = false) (h4 : st.mediaStream = false)
    (h5 : st.activeIds = []) (h6 : st.nextStartTime = 0) :
    stopSession st = st := by
  cases st
  simp_all [stopSession]

/-- Witness for C9: stopping the concrete idle state is a no-op. -/
theorem c9_stopIdempotentOnIdle_witness :
    stopSession idleState = idleState :=
  c9_stopIdempotentOnIdle idleState rfl rfl rfl rfl rfl rfl

/-- Claim C10: the translation helper returns `null` without contacting the
external service when the text is empty or the toggle is disabled, and the
resulting entries carry no translation field. -/
theorem c10_translationShortCircuit :
    (∀ (enabled : Bool) (reply : TranslationReply),
      translateToEnglish "" enabled reply = (none, false))
    ∧ (∀ (text : String) (reply : TranslationReply),
      translateToEnglish text false reply = (none, false))
    ∧ (∀ (st : AppState) (ts : String) (u m : TranslationReply),
      ∀ e ∈ (flushTurn st false u m ts).transcript,
        e ∈ st.transcript ∨ e.englishTranslation = none) := by
  refine ⟨?_, ?_, ?_⟩
  · intro enabled reply
    simp [translateToEnglish]
  · intro text reply
    simp [translateToEnglish]
  · intro st ts u m e he
    by_cases hu : st.currentUserInput = "" <;>
      by_cases hm : st.currentModelOutput = ""
    · simp [flushTurn, hu, hm] at he
      exact Or.inl he
    · simp [flushTurn, hu, hm, translateToEnglish, orUndefined] at he
      rcases he with h | h
      · exact Or.inl h
      · subst h
        exact Or.inr rfl
    · simp [flushTurn, hu, hm, translateToEnglish, orUndefined] at he
      rcases he with h | h
      · exact Or.inl h
      · subst h
        exact Or.inr rfl
    · simp [flushTurn, hu, hm, translateToEnglish, orUndefined] at he
      rcases he with h | h | h
      · exact Or.inl h
      · subst h
        exact Or.inr rfl
      · subst h
        exact Or.inr rfl

/-- Witness for C10: with the toggle disabled, the entry flushed for "Hola"
carries no translation field. -/
theorem c10_translationShortCircuit_witness :
    (⟨"1" ++ "-u", Role.user, "Hola", none, false⟩ : TranscriptEntry)
        ∈ turnState.transcript
    ∨ (⟨"1" ++ "-u", Role.user, "Hola", none, false⟩
        : TranscriptEntry).englishTranslation = none :=
  c10_translationShortCircuit.2.2 turnState "1" .fail .fail
    ⟨"1" ++ "-u", Role.user, "Hola", none, false⟩
    (by simp [flushTurn, turnState, demoState, translateToEnglish, orUndefined])

end Aether
